import Mathlib

/-!
Shallow embedding of src/python/pdf_processor.py (class PDFProcessor).

Python strings are modelled as lists of characters; a PDF document is
modelled by the list of its pages' extracted texts (what PyPDF2's
page.extract_text() returns for each page). All definitions are
translated from the source file; the few notions that exist only in the
specification (the shipping-statement marker scan) are marked as such in
their doc comments.
-/

namespace LedgHome

/-- Text, modelled as a list of characters; mirrors a Python str. -/
abbrev Line := List Char

/-- Whitespace characters removed by Python str.strip, restricted to the
whitespace that can occur in this repository's data: ASCII whitespace,
no-break space and the ideographic space. -/
def isPyWs (c : Char) : Bool :=
  c = ' ' || c = '\t' || c = '\n' || c = '\r' || c = '\x0b' || c = '\x0c' ||
  c = ' ' || c = '　'

/-- Python s.strip(): drop leading and trailing whitespace. -/
def stripWs (l : Line) : Line :=
  ((l.dropWhile isPyWs).reverse.dropWhile isPyWs).reverse

/-- Does the text start with the given character sequence? -/
def startsWithSeq : Line → Line → Bool
  | [], _ => true
  | _ :: _, [] => false
  | s :: ss, c :: cs => s == c && startsWithSeq ss cs

/-- Remainder of the text after the first occurrence of sep, or none when
sep does not occur; the search helper behind Python's in and split. -/
def afterSeq (sep : Line) : Line → Option Line
  | [] => none
  | c :: rest =>
    if startsWithSeq sep (c :: rest) then some ((c :: rest).drop sep.length)
    else afterSeq sep rest

/-- Prefix of the text before the first occurrence of sep (the whole text
when sep does not occur). -/
def beforeSeq (sep : Line) : Line → Line
  | [] => []
  | c :: rest =>
    if startsWithSeq sep (c :: rest) then []
    else c :: beforeSeq sep rest

/-- Python sep in l (for a non-empty sep). -/
def containsSeq (sep : Line) (l : Line) : Bool := (afterSeq sep l).isSome

/-- Python text.split-on-newline, as used at line 100 of the source. -/
def splitOnNl : Line → List Line
  | [] => [[]]
  | c :: rest =>
    if c = '\n' then [] :: splitOnNl rest
    else
      match splitOnNl rest with
      | [] => [[c]]
      | h :: t => (c :: h) :: t

/-- Concatenation of every page's text with a newline appended to each
page, as built by extract_company_name_from_postage (lines 94-97). -/
def fullTextOf (pages : List Line) : Line :=
  pages.foldr (fun p acc => p ++ '\n' :: acc) []

/-- Line decomposition of the concatenated page texts (line 100 of the
source: full_text.split on the newline character). -/
def linesOf (pages : List Line) : List Line := splitOnNl (fullTextOf pages)

/-- Remainder of the text after the first closing bracket 】, when one
occurs. -/
def dropToClose : Line → Option Line
  | [] => none
  | c :: rest => if c = '】' then some rest else dropToClose rest

/-- Fuel-indexed scanner behind stripBrackets; the fuel bounds the number
of characters consumed and is always instantiated with the text length. -/
def stripBracketsAux : Nat → Line → Line
  | 0, l => l
  | _ + 1, [] => []
  | fuel + 1, c :: rest =>
    if c = '【' then
      match dropToClose rest with
      | some rest2 => stripBracketsAux fuel rest2
      | none => c :: stripBracketsAux fuel rest
    else c :: stripBracketsAux fuel rest

/-- Python re.sub removing every 【...】 annotation, left to right
(line 109 of the source). An opening bracket with no later closing
bracket matches nothing and is kept. -/
def stripBrackets (l : Line) : Line := stripBracketsAux l.length l

/-- Label token 事業者名 searched for in each line (line 102). -/
def tokenChars : Line := "事業者名".data

/-- Sentinel 不明な会社 (unknown business) returned when every heuristic
fails (lines 86, 118, 153, 157). -/
def unknownCompany : Line := "不明な会社".data

/-- Loop body of extract_company_name_from_postage for one line
(lines 101-111 of the source): when the line contains 事業者名, take
the chunk between the first and the second occurrence of the token
(Python line.split(token) index 1), strip it, and when its length
exceeds 2, remove 【...】 annotations and strip again; otherwise the
loop moves on to the next line. -/
def lineName (line : Line) : Option Line :=
  match afterSeq tokenChars line with
  | none => none
  | some rest =>
    let part1 := stripWs (beforeSeq tokenChars rest)
    if 2 < part1.length then some (stripWs (stripBrackets part1)) else none

/-- The for-loop of extract_company_name_from_postage over all lines
(lines 101-111): the first line whose extraction chain succeeds wins. -/
def findPostageName : List Line → Option Line
  | [] => none
  | l :: ls =>
    match lineName l with
    | some cn => some cn
    | none => findPostageName ls

/-- Character class 一-龯ァ-ヶー of the corporate-name patterns
(lines 132-141 of the source): CJK ideographs U+4E00 to U+9FAF, katakana
U+30A1 to U+30F6, and the prolonged sound mark U+30FC. -/
def isNameChar (c : Char) : Bool :=
  decide ((0x4E00 ≤ c.toNat ∧ c.toNat ≤ 0x9FAF) ∨
          (0x30A1 ≤ c.toNat ∧ c.toNat ≤ 0x30F6) ∨
          c.toNat = 0x30FC)

/-- Length of the maximal run of name-class characters at the head of the
text: the greedy first attempt of the class repetition. -/
def nameRun (l : Line) : Nat := (l.takeWhile isNameChar).length

/-- Greedy backtracking for one regex pattern at one position: the largest
k below the given bound with 2 ≤ k such that the literal suffix follows
the first k characters. The bound is instantiated with the class run
length, so the first k characters are name-class characters. -/
def findKAux (suf : Line) (l : Line) : Nat → Option Nat
  | 0 => none
  | k + 1 =>
    if 2 ≤ k + 1 ∧ startsWithSeq suf (l.drop (k + 1)) = true then some (k + 1)
    else findKAux suf l k

/-- Longest regex match length at the head of the text for the pattern
class-run-then-suffix, or none when no match starts here. -/
def findK (suf : Line) (l : Line) : Option Nat := findKAux suf l (nameRun l)

/-- Fuel-indexed scanner behind findAll; the fuel bounds the number of
scan steps and is always instantiated with the text length. -/
def findAllAux (suf : Line) : Nat → Line → List Line
  | 0, _ => []
  | _ + 1, [] => []
  | fuel + 1, c :: rest =>
    match findK suf (c :: rest) with
    | some k =>
        ((c :: rest).take k ++ suf) :: findAllAux suf fuel ((c :: rest).drop (k + suf.length))
    | none => findAllAux suf fuel rest

/-- Python re.findall for one corporate-name pattern (line 144): leftmost
non-overlapping greedy matches; the captured group is the whole match. -/
def findAll (suf : Line) (l : Line) : List Line := findAllAux suf l.length l

/-- Python max(matches, key=len) (line 147): the first element of maximal
length. -/
def maxByLen : List Line → Line
  | [] => []
  | m :: ms => ms.foldl (fun best x => if best.length < x.length then x else best) m

/-- Literal suffixes of the eight corporate-name patterns (lines 132-141),
in source order. -/
def companySuffixes : List Line :=
  ["株式会社".data, "有限会社".data, "合資会社".data, "合名会社".data,
   "協同組合".data, "協会".data, "財団".data, "法人".data]

/-- Inner pattern loop of extract_company_name_from_pdf for one page
(lines 143-151): for each pattern in order, when it has matches, take the
longest match, strip it, and return it when its length is strictly
between 3 and 50; otherwise try the next pattern. -/
def tryPatterns : List Line → Line → Option Line
  | [], _ => none
  | suf :: sufs, text =>
    if findAll suf text = [] then tryPatterns sufs text
    else
      if 3 < (stripWs (maxByLen (findAll suf text))).length ∧
         (stripWs (maxByLen (findAll suf text))).length < 50 then
        some (stripWs (maxByLen (findAll suf text)))
      else tryPatterns sufs text

/-- Outer page loop of extract_company_name_from_pdf (line 127): the first
page on which some pattern yields an accepted name wins. -/
def tryPages : List Line → Option Line
  | [] => none
  | p :: ps =>
    match tryPatterns companySuffixes p with
    | some cn => some cn
    | none => tryPages ps

/-- PDFProcessor.extract_company_name_from_pdf (lines 120-157): scan the
first min(3, pageCount) pages for a corporate-suffix pattern match of
accepted length; return the sentinel when none is found. -/
def extract_company_name_from_pdf (pages : List Line) : Line :=
  match tryPages (pages.take 3) with
  | some cn => cn
  | none => unknownCompany

/-- PDFProcessor.extract_company_name_from_postage (lines 88-118): scan
all lines of the concatenated page texts for the 事業者名 token; when no
line yields a name, fall back to extract_company_name_from_pdf on the
same document. -/
def extract_company_name_from_postage (pages : List Line) : Line :=
  match findPostageName (linesOf pages) with
  | some cn => cn
  | none => extract_company_name_from_pdf pages

/-- Presence and readability of a PDF document handed to
extract_company_name: absent models a missing file (the tier's if-guard
at lines 69 and 78 skips it), unreadable models a PyPDF2 or I/O
exception (caught at lines 116-118 or 155-157, yielding the sentinel),
and readable carries the pages' extracted texts. -/
inductive Doc
  | absent
  | unreadable
  | readable (pages : List Line)
deriving DecidableEq

/-- Python truthiness test company_name and company_name != 不明な会社
applied to each tier's result (lines 72 and 81). -/
def tierAccept (cn : Line) : Bool := decide (cn ≠ [] ∧ cn ≠ unknownCompany)

/-- Tier 1 of extract_company_name (lines 69-75): the postage document.
An absent file skips the tier and a read error is caught inside
extract_company_name_from_postage; both behave as the rejected
sentinel. -/
def postageStep : Doc → Line
  | .readable pages => extract_company_name_from_postage pages
  | _ => unknownCompany

/-- Tier 2 of extract_company_name (lines 78-84): the bill_shipping
document, handled by extract_company_name_from_pdf with the same
absence and error behaviour as tier 1. -/
def billStep : Doc → Line
  | .readable pages => extract_company_name_from_pdf pages
  | _ => unknownCompany

/-- PDFProcessor.extract_company_name (lines 66-86): try the postage
tier, then the bill tier, else return the sentinel. The subfolder name
is received (line 242 passes item.name) but never read. -/
def extract_company_name (subfolder_name : Line) (postage bill : Doc) : Line :=
  if tierAccept (postageStep postage) = true then postageStep postage
  else if tierAccept (billStep bill) = true then billStep bill
  else unknownCompany

/-- Document kind of an output file: the three fixed name templates of
the source (lines 178, 193 and 255). -/
inductive DocKind
  | invoice
  | detail
  | postage
deriving DecidableEq

/-- Fixed per-kind label of the output filename templates: ご請求書
(line 178), ご請求明細書 (line 193), ご請求送料明細書 (line 255). -/
def kindLabel : DocKind → Line
  | .invoice => "ご請求書".data
  | .detail => "ご請求明細書".data
  | .postage => "ご請求送料明細書".data

/-- Python format specifier 0-padding a natural number to the given
width, as in the year and month fields of the filename templates. -/
def padNum (w : Nat) (n : Nat) : Line :=
  List.replicate (w - (Nat.toDigits 10 n).length) '0' ++ Nat.toDigits 10 n

/-- Filename template shared by lines 178, 193 and 255 of the source:
year zero-padded to 4 digits, month zero-padded to 2 digits, underscore,
business name, 様, underscore, per-kind label, and the .pdf suffix. -/
def outputName (year month : Nat) (company : Line) (k : DocKind) : Line :=
  padNum 4 year ++ padNum 2 month ++ "_".data ++ company ++ "様_".data ++
    kindLabel k ++ ".pdf".data

/-- One output file persisted by split_pdf: its name and the page texts
written into it. -/
structure WrittenFile where
  name : Line
  content : List Line
deriving DecidableEq

/-- PDFProcessor.split_pdf (lines 159-206), modelled by the files it
writes: for fewer than 2 pages nothing is written and the empty list is
returned (lines 168-170); otherwise page 0 is written under the invoice
name (lines 174-184) and, the page count being above 1, pages 1 to the
end are written under the detail name (lines 187-200). No page text is
inspected: there is no marker scan in the source. -/
def split_pdf (pages : List Line) (company : Line) (year month : Nat) :
    List WrittenFile :=
  if pages.length < 2 then []
  else
    if pages.length > 1 then
      [⟨outputName year month company DocKind.invoice, pages.take 1⟩,
       ⟨outputName year month company DocKind.detail, pages.drop 1⟩]
    else
      [⟨outputName year month company DocKind.invoice, pages.take 1⟩]

/-- Body of split_pdf inside its try block (lines 161-202), with the two
file writes performed through an explicit writer that may fail: the
returned value is the Python return value (the list of written paths),
and a writer failure is the exception propagating out of the body. -/
def split_pdf_attempt (w : Line → List Line → Except Unit Unit)
    (pages : List Line) (company : Line) (year month : Nat) :
    Except Unit (List Line) :=
  if pages.length < 2 then Except.ok []
  else
    match w (outputName year month company DocKind.invoice) (pages.take 1) with
    | Except.error e => Except.error e
    | Except.ok _ =>
      if pages.length > 1 then
        match w (outputName year month company DocKind.detail) (pages.drop 1) with
        | Except.error e => Except.error e
        | Except.ok _ =>
            Except.ok [outputName year month company DocKind.invoice,
                       outputName year month company DocKind.detail]
      else Except.ok [outputName year month company DocKind.invoice]

/-- PDFProcessor.split_pdf with its except clause (lines 204-206): any
exception escaping the body, a write failure included, is caught and the
empty list is returned in its place. -/
def split_pdf_catch (w : Line → List Line → Except Unit Unit)
    (pages : List Line) (company : Line) (year month : Nat) : List Line :=
  match split_pdf_attempt w pages company year month with
  | Except.ok files => files
  | Except.error _ => []

/-- Modelled from the spec: the literal shipping-statement marker
出荷明細書 that section 4.2's DocumentSegmenter scans page first lines
for. The source's split_pdf performs no such scan, so this marker exists
only to state the spec's segmentation claims. -/
def markerChars : Line := "出荷明細書".data

/-- Modelled from the spec: does the page's first line contain the
shipping-statement marker. -/
def markerOnFirst (p : Line) : Bool :=
  containsSeq markerChars (p.takeWhile (fun c => c != '\n'))

/-- Modelled from the spec: the indices of the pages whose first line
contains the shipping-statement marker. -/
def markerPageIdxs (pages : List Line) : List Nat :=
  (List.range pages.length).filter (fun i => markerOnFirst (pages.getD i []))

/-- Sample three-page document whose only marker page is at index 2. -/
def cexPages3 : List Line :=
  ["invoice page A".data, "invoice page B".data, "出荷明細書\ndetail rows".data]

/-- Sample two-page document with no marker page. -/
def cexPages2 : List Line := ["first page".data, "second page".data]

/-- Sample one-page document. -/
def cexPages1 : List Line := ["only page".data]

/-- Sample postage document whose third line carries the 事業者名 token
followed by a bracket-annotated business name. -/
def c5Pages : List Line :=
  ["出荷明細書\nrow2\nXYZ事業者名ACME Corp【注】\nmore".data]

/-- Sample postage document with no 事業者名 token anywhere, whose fourth
line is a trimmed-length-over-2 business name without a corporate
suffix. -/
def c6Pages : List Line := ["出荷明細書\nfoo\nbar\n  Acme Trading  ".data]

/-- Writer that fails on every file, modelling an I/O error while
persisting an output. -/
def failWriter : Line → List Line → Except Unit Unit := fun _ _ => Except.error ()

/-! Helper lemmas shared by the claim theorems. -/

theorem afterSeq_eq_none (sep l : Line) (h : containsSeq sep l = false) :
    afterSeq sep l = none := by
  cases ha : afterSeq sep l with
  | none => rfl
  | some r => rw [containsSeq, ha] at h; cases h

theorem lineName_eq_none (l : Line) (h : containsSeq tokenChars l = false) :
    lineName l = none := by
  unfold lineName
  rw [afterSeq_eq_none tokenChars l h]

theorem findPostageName_eq_none (ls : List Line)
    (h : ∀ l ∈ ls, containsSeq tokenChars l = false) :
    findPostageName ls = none := by
  induction ls with
  | nil => rfl
  | cons l ls ih =>
    have hn := lineName_eq_none l (h l (by simp))
    rw [findPostageName, hn]
    exact ih (fun x hx => h x (by simp [hx]))

theorem tierAccept_true (cn : Line) (h : tierAccept cn = true) :
    cn ≠ [] ∧ cn ≠ unknownCompany := by
  unfold tierAccept at h
  exact of_decide_eq_true h

/-! Claim C4. The source's extract_company_name receives the subfolder
name but never reads it: there is no folder-identifier fallback. -/

/-- Claim C4, counterexample: with folder identifier 001_ACME and no
documents, step 1 yields nothing, yet the extractor returns the sentinel
不明な会社 and not the claimed token ACME after the underscore. -/
theorem c4_counterexample :
    extract_company_name "001_ACME".data Doc.absent Doc.absent = unknownCompany ∧
    unknownCompany ≠ "ACME".data := by decide

/-- Claim C4, amended: the extractor's result never depends on the folder
identifier; two calls differing only in the identifier agree, whatever
the documents hold. -/
theorem c4_amended (s1 s2 : Line) (p b : Doc) :
    extract_company_name s1 p b = extract_company_name s2 p b := rfl

/-! Claim C5. The token line yields the post-token chunk,
bracket-stripped and trimmed. -/

/-- Claim C5: when the document's line decomposition starts with two
token-free lines followed by the third line XYZ事業者名ACME Corp【注】,
extract_company_name_from_postage splits that line on the 事業者名
token, takes the substring after the token, strips the 【...】
annotation and trims, returning exactly ACME Corp. -/
theorem c5_postage_token_line (pages : List Line) (l0 l1 : Line) (rest : List Line)
    (h : linesOf pages = l0 :: l1 :: "XYZ事業者名ACME Corp【注】".data :: rest)
    (h0 : containsSeq tokenChars l0 = false)
    (h1 : containsSeq tokenChars l1 = false) :
    extract_company_name_from_postage pages = "ACME Corp".data := by
  have hX : lineName "XYZ事業者名ACME Corp【注】".data = some "ACME Corp".data := by
    decide
  unfold extract_company_name_from_postage
  rw [h, findPostageName, lineName_eq_none l0 h0, findPostageName,
    lineName_eq_none l1 h1, findPostageName, hX]

/-- Claim C5, witness: the theorem applied to a concrete one-page postage
document whose third line is the token line. -/
theorem c5_postage_token_line_witness :
    extract_company_name_from_postage c5Pages = "ACME Corp".data :=
  c5_postage_token_line c5Pages "出荷明細書".data "row2".data ["more".data, []]
    (by decide) (by decide) (by decide)

/-! Claim C6. The source has no fourth-line heuristic: when no line
carries the token it falls back to the corporate-suffix pattern scan. -/

/-- Claim C6, counterexample: a document whose third line lacks the token
and whose fourth line is the trimmed-length-over-2 text Acme Trading;
the extractor returns the sentinel 不明な会社, not Acme Trading. -/
theorem c6_counterexample :
    (∀ l ∈ linesOf c6Pages, containsSeq tokenChars l = false) ∧
    (linesOf c6Pages).getD 3 [] = "  Acme Trading  ".data ∧
    2 < (stripWs ((linesOf c6Pages).getD 3 [])).length ∧
    extract_company_name_from_postage c6Pages = unknownCompany ∧
    unknownCompany ≠ "Acme Trading".data := by decide

/-- Claim C6, amended: when no line of the document contains the
事業者名 token, extract_company_name_from_postage never consults a
fourth line; it returns whatever the corporate-suffix pattern scan
extract_company_name_from_pdf yields on the same document. -/
theorem c6_amended (pages : List Line)
    (h : ∀ l ∈ linesOf pages, containsSeq tokenChars l = false) :
    extract_company_name_from_postage pages = extract_company_name_from_pdf pages := by
  unfold extract_company_name_from_postage
  rw [findPostageName_eq_none (linesOf pages) h]

/-- Claim C6, witness: the amended theorem applied to the concrete
token-free document. -/
theorem c6_amended_witness :
    extract_company_name_from_postage c6Pages = extract_company_name_from_pdf c6Pages :=
  c6_amended c6Pages (by decide)

/-! Claim C7. The extraction result is never the empty string and the
sentinel is returned when every tier fails. -/

/-- Claim C7: for every folder identifier and every combination of
absent, unreadable or arbitrary-content documents, extract_company_name
returns a non-empty string, and when both tiers yield rejected values it
returns the sentinel 不明な会社. -/
theorem c7_never_empty (s : Line) (p b : Doc) :
    extract_company_name s p b ≠ [] ∧
    (tierAccept (postageStep p) = false → tierAccept (billStep b) = false →
      extract_company_name s p b = unknownCompany) := by
  by_cases h1 : tierAccept (postageStep p) = true
  · refine ⟨?_, ?_⟩
    · simp only [extract_company_name, if_pos h1]
      exact (tierAccept_true _ h1).1
    · intro hf _; rw [h1] at hf; cases hf
  · by_cases h2 : tierAccept (billStep b) = true
    · refine ⟨?_, ?_⟩
      · simp only [extract_company_name, if_neg h1, if_pos h2]
        exact (tierAccept_true _ h2).1
      · intro _ hf; rw [h2] at hf; cases hf
    · refine ⟨?_, ?_⟩
      · simp only [extract_company_name, if_neg h1, if_neg h2]
        decide
      · intro _ _; simp only [extract_company_name, if_neg h1, if_neg h2]

/-- Claim C7, witness: with no documents at all both tiers fail, the
result is the sentinel, and it is non-empty. -/
theorem c7_never_empty_witness :
    extract_company_name "folder".data Doc.absent Doc.absent ≠ [] ∧
    extract_company_name "folder".data Doc.absent Doc.absent = unknownCompany :=
  ⟨(c7_never_empty "folder".data Doc.absent Doc.absent).1,
   (c7_never_empty "folder".data Doc.absent Doc.absent).2 (by decide) (by decide)⟩

/-! Claims C1, C2, C3. The source's split_pdf always cuts after page 0,
never scans for the marker, and silently returns an empty list for
documents of fewer than 2 pages. -/

theorem split_pdf_of_two (pages : List Line) (company : Line) (year month : Nat)
    (h : 2 ≤ pages.length) :
    split_pdf pages company year month =
      [⟨outputName year month company DocKind.invoice, pages.take 1⟩,
       ⟨outputName year month company DocKind.detail, pages.drop 1⟩] := by
  unfold split_pdf
  rw [if_neg (by omega), if_pos (by omega)]

/-- Claim C1, counterexample: a three-page document whose single marker
page sits at index 2; the claim demands an invoice segment of 2 pages,
but split_pdf writes an invoice of exactly 1 page (page 0) and a detail
of pages 1 and 2. -/
theorem c1_counterexample :
    markerPageIdxs cexPages3 = [2] ∧ cexPages3.length = 3 ∧
    split_pdf cexPages3 "ACME".data 2025 8 =
      [⟨outputName 2025 8 "ACME".data DocKind.invoice, cexPages3.take 1⟩,
       ⟨outputName 2025 8 "ACME".data DocKind.detail, cexPages3.drop 1⟩] ∧
    (cexPages3.take 1).length ≠ 2 := by decide

/-- Claim C1, amended: for every document of at least 2 pages whose only
marker page is at index k with k positive, split_pdf ignores k and
produces an invoice segment of exactly pages [0, 1) and a detail segment
of exactly pages [1, pageCount). -/
theorem c1_amended (pages : List Line) (company : Line) (year month k : Nat)
    (hm : markerPageIdxs pages = [k]) (hk : 0 < k) (hlen : 2 ≤ pages.length) :
    split_pdf pages company year month =
      [⟨outputName year month company DocKind.invoice, pages.take 1⟩,
       ⟨outputName year month company DocKind.detail, pages.drop 1⟩] :=
  split_pdf_of_two pages company year month hlen

/-- Claim C1, witness: the amended theorem applied to the concrete
three-page document with its marker at index 2. -/
theorem c1_amended_witness :
    split_pdf cexPages3 "ACME".data 2025 8 =
      [⟨outputName 2025 8 "ACME".data DocKind.invoice, cexPages3.take 1⟩,
       ⟨outputName 2025 8 "ACME".data DocKind.detail, cexPages3.drop 1⟩] :=
  c1_amended cexPages3 "ACME".data 2025 8 2 (by decide) (by decide) (by decide)

/-- Claim C2, counterexample: a two-page document with no marker page;
the claim demands a detail segment equal to the full document with page
0 in both outputs, but split_pdf writes a detail of pages [1, pageCount)
that does not contain page 0. -/
theorem c2_counterexample :
    markerPageIdxs cexPages2 = [] ∧
    split_pdf cexPages2 "ACME".data 2025 8 =
      [⟨outputName 2025 8 "ACME".data DocKind.invoice, cexPages2.take 1⟩,
       ⟨outputName 2025 8 "ACME".data DocKind.detail, cexPages2.drop 1⟩] ∧
    cexPages2.drop 1 ≠ cexPages2 ∧
    "first page".data ∉ cexPages2.drop 1 := by decide

/-- Claim C2, amended: for a document of at least 2 pages in which no
page's first line contains the marker, split_pdf still writes the
one-page invoice of page 0 and a detail segment of exactly pages
[1, pageCount); page 0 appears only in the invoice output. -/
theorem c2_amended (pages : List Line) (company : Line) (year month : Nat)
    (hm : markerPageIdxs pages = []) (hlen : 2 ≤ pages.length) :
    split_pdf pages company year month =
      [⟨outputName year month company DocKind.invoice, pages.take 1⟩,
       ⟨outputName year month company DocKind.detail, pages.drop 1⟩] :=
  split_pdf_of_two pages company year month hlen

/-- Claim C2, witness: the amended theorem applied to the concrete
marker-free two-page document. -/
theorem c2_amended_witness :
    split_pdf cexPages2 "ACME".data 2025 8 =
      [⟨outputName 2025 8 "ACME".data DocKind.invoice, cexPages2.take 1⟩,
       ⟨outputName 2025 8 "ACME".data DocKind.detail, cexPages2.drop 1⟩] :=
  c2_amended cexPages2 "ACME".data 2025 8 (by decide) (by decide)

/-- Claim C3, counterexample: a one-page document; the claim demands a
detail output for every source of at least 1 page, but split_pdf writes
nothing and returns the empty list (and a zero-page document likewise
yields the empty list, no EmptyDocumentError being raised anywhere in
the source). -/
theorem c3_counterexample :
    cexPages1.length = 1 ∧
    split_pdf cexPages1 "ACME".data 2025 8 = [] ∧
    split_pdf ([] : List Line) "ACME".data 2025 8 = [] := by decide

/-- Claim C3, amended: a non-empty detail output is produced exactly when
the source has at least 2 pages; for a 0- or 1-page source, split_pdf
writes nothing and returns the empty list without raising any error. -/
theorem c3_amended (pages : List Line) (company : Line) (year month : Nat) :
    (2 ≤ pages.length →
      split_pdf pages company year month =
        [⟨outputName year month company DocKind.invoice, pages.take 1⟩,
         ⟨outputName year month company DocKind.detail, pages.drop 1⟩] ∧
      pages.drop 1 ≠ []) ∧
    (pages.length < 2 → split_pdf pages company year month = []) := by
  constructor
  · intro h
    refine ⟨split_pdf_of_two pages company year month h, ?_⟩
    intro hd
    have := congrArg List.length hd
    simp at this
    omega
  · intro h
    unfold split_pdf
    rw [if_pos h]

/-- Claim C3, witness: the amended theorem applied to the concrete
two-page document, whose detail segment is written and non-empty. -/
theorem c3_amended_witness :
    split_pdf cexPages2 "ACME".data 2025 8 =
      [⟨outputName 2025 8 "ACME".data DocKind.invoice, cexPages2.take 1⟩,
       ⟨outputName 2025 8 "ACME".data DocKind.detail, cexPages2.drop 1⟩] ∧
    cexPages2.drop 1 ≠ [] :=
  (c3_amended cexPages2 "ACME".data 2025 8).1 (by decide)

/-! Claim C8. The except clause of split_pdf catches every exception of
its body, write failures included, and returns the empty list: no error
reaches the caller. -/

/-- Claim C8, counterexample: on a two-page document with a writer that
fails, the body raises, yet split_pdf returns the empty list normally
instead of propagating the error to its caller. -/
theorem c8_counterexample :
    split_pdf_attempt failWriter cexPages2 "ACME".data 2025 8 = Except.error () ∧
    split_pdf_catch failWriter cexPages2 "ACME".data 2025 8 = [] := ⟨rfl, rfl⟩

/-- Claim C8, amended: whenever persisting an output file fails, the
failure is caught inside split_pdf itself, which returns the empty list;
the underlying error is not surfaced to the caller. -/
theorem c8_amended (w : Line → List Line → Except Unit Unit) (pages : List Line)
    (company : Line) (year month : Nat) (e : Unit)
    (h : split_pdf_attempt w pages company year month = Except.error e) :
    split_pdf_catch w pages company year month = [] := by
  unfold split_pdf_catch
  rw [h]

/-- Claim C8, witness: the amended theorem applied to the always-failing
writer on the concrete two-page document. -/
theorem c8_amended_witness :
    split_pdf_catch failWriter cexPages2 "ACME".data 2025 8 = [] :=
  c8_amended failWriter cexPages2 "ACME".data 2025 8 () rfl

/-! Claim C9. The filename construction is a pure function of year,
month, business name and kind, following the fixed template. -/

/-- Claim C9: outputName follows the template year (4 digits), month
(2 digits), underscore, business name, 様, underscore, per-kind label,
.pdf for every input, and on (2025, 8, ACME, invoice) it yields exactly
202508_ACME様_ご請求書.pdf; being a function, identical inputs always
give identical filenames. -/
theorem c9_output_name :
    (∀ (year month : Nat) (company : Line) (k : DocKind),
        outputName year month company k =
          padNum 4 year ++ padNum 2 month ++ "_".data ++ company ++ "様_".data ++
            kindLabel k ++ ".pdf".data) ∧
    outputName 2025 8 "ACME".data DocKind.invoice = "202508_ACME様_ご請求書.pdf".data :=
  ⟨fun _ _ _ _ => rfl, by decide⟩

/-! Claim C10. The content-pattern tier looks at the first
min(3, pageCount) pages only and only accepts lengths strictly between
3 and 50. -/

theorem tryPatterns_eq_some (sufs : List Line) (text : Line) :
    ∀ cn : Line, tryPatterns sufs text = some cn →
      3 < cn.length ∧ cn.length < 50 ∧
        ∃ suf ∈ sufs, cn = stripWs (maxByLen (findAll suf text)) := by
  induction sufs with
  | nil => intro cn h; simp [tryPatterns] at h
  | cons suf sufs ih =>
    intro cn h
    by_cases hm : findAll suf text = []
    · rw [tryPatterns, if_pos hm] at h
      obtain ⟨b1, b2, s, hs, hcn⟩ := ih cn h
      exact ⟨b1, b2, s, by simp [hs], hcn⟩
    · rw [tryPatterns, if_neg hm] at h
      by_cases hb : 3 < (stripWs (maxByLen (findAll suf text))).length ∧
          (stripWs (maxByLen (findAll suf text))).length < 50
      · rw [if_pos hb] at h
        have hc := Option.some.inj h
        subst hc
        exact ⟨hb.1, hb.2, suf, by simp, rfl⟩
      · rw [if_neg hb] at h
        obtain ⟨b1, b2, s, hs, hcn⟩ := ih cn h
        exact ⟨b1, b2, s, by simp [hs], hcn⟩

theorem tryPages_eq_some (ps : List Line) :
    ∀ cn : Line, tryPages ps = some cn →
      ∃ p ∈ ps, tryPatterns companySuffixes p = some cn := by
  induction ps with
  | nil => intro cn h; simp [tryPages] at h
  | cons p ps ih =>
    intro cn h
    cases htp : tryPatterns companySuffixes p with
    | some c =>
      simp [tryPages, htp] at h
      exact ⟨p, by simp, by rw [htp, h]⟩
    | none =>
      simp [tryPages, htp] at h
      obtain ⟨q, hq, hqq⟩ := ih cn h
      exact ⟨q, by simp [hq], hqq⟩

/-- Claim C10: extract_company_name_from_pdf depends only on the first
min(3, pageCount) pages, and its result is either the unknown-business
sentinel or a stripped longest pattern match taken from one of those
pages whose length is strictly greater than 3 and strictly less than 50;
hence a name found only on page 4 or later, or of length at most 3 or at
least 50, is never returned by this tier. -/
theorem c10_pdf_tier (pages : List Line) :
    extract_company_name_from_pdf pages = extract_company_name_from_pdf (pages.take 3) ∧
    (extract_company_name_from_pdf pages = unknownCompany ∨
      ∃ p ∈ pages.take 3, ∃ suf ∈ companySuffixes,
        extract_company_name_from_pdf pages = stripWs (maxByLen (findAll suf p)) ∧
        3 < (extract_company_name_from_pdf pages).length ∧
        (extract_company_name_from_pdf pages).length < 50) := by
  constructor
  · have h33 : (pages.take 3).take 3 = pages.take 3 := by simp
    unfold extract_company_name_from_pdf
    rw [h33]
  · cases htp : tryPages (pages.take 3) with
    | none =>
      left
      unfold extract_company_name_from_pdf
      rw [htp]
    | some cn =>
      right
      obtain ⟨p, hp, hpat⟩ := tryPages_eq_some _ cn htp
      obtain ⟨b1, b2, suf, hsuf, hcn⟩ := tryPatterns_eq_some _ _ cn hpat
      have hval : extract_company_name_from_pdf pages = cn := by
        unfold extract_company_name_from_pdf
        rw [htp]
      exact ⟨p, hp, suf, hsuf, by rw [hval, hcn], by rw [hval]; exact b1,
        by rw [hval]; exact b2⟩

end LedgHome
